import Mathlib

/-!
# Verification of the classroom-management backend's aggregation and CRUD layer

This development is a shallow embedding of the parts of the backend
(`crud.py`, `main.py`, `models.py`, `schemas.py`) that the specification's
testable properties talk about: submission creation, violation logging and
aggregation, engagement insights, teacher report rollups, class deletion
cascades, and the student-scoped violations read path.

Modelling conventions:
* Database rows become Lean structures; a `DB` value is the whole store.
* SQLAlchemy `filter(...).first()` becomes `List.find?`, `.all()` becomes
  `List.filter`, `order_by(x.desc()).offset(s).limit(n)` becomes a stable
  insertion sort on the key followed by `drop`/`take`.
* Python numeric values (ints and floats) are modelled as `Int`/`ℚ` with
  exact arithmetic; Python's `round(x, n)` banker's rounding is modelled
  exactly on rationals by `pyRound`.
* Raising an exception becomes returning `Except.error`; handlers that
  mutate the store return the resulting `DB` alongside the result (on an
  error path the store is returned unchanged, mirroring the rollback).
* Autoincrement primary keys are modelled by `freshId` (one more than the
  largest id present).
-/

/-- User roles (`models.UserRole`). -/
inductive Role where
  | admin
  | teacher
  | student
deriving DecidableEq, Repr

/-- A row of the `users` table (`models.User`); password hash and profile
picture are irrelevant to the claims and omitted. -/
structure UserRec where
  id : Int
  username : String
  role : Role
deriving DecidableEq, Repr

/-- A row of the `classes` table (`models.Class`). -/
structure ClassRec where
  id : Int
  name : String
  code : String
  teacherId : Option Int
deriving DecidableEq, Repr

/-- A row of the `enrollments` table (`models.Enrollment`). -/
structure EnrollmentRec where
  id : Int
  classId : Int
  studentId : Int
deriving DecidableEq, Repr

/-- A row of the `assignments` table (`models.Assignment`). -/
structure AssignmentRec where
  id : Int
  name : String
  classId : Int
  creatorId : Int
deriving DecidableEq, Repr

/-- A row of the `submissions` table (`models.Submission`).  `grade` is a
nullable float column, `time_spent_minutes` an integer column (the upload
endpoint nevertheless feeds it a form float, hence `ℚ`). -/
structure SubmissionRec where
  id : Int
  assignmentId : Int
  studentId : Int
  grade : Option ℚ
  timeSpentMinutes : ℚ
  content : Option String
  linkUrl : Option String
  filePath : Option String
  fileName : Option String
  submittedAt : Nat
deriving DecidableEq, Repr

/-- A row of the `schedules` table (`models.Schedule`); only the class
foreign key matters to the claims. -/
structure ScheduleRec where
  id : Int
  classId : Int
  status : String
deriving DecidableEq, Repr

/-- A row of the `classroom_reports` table (`models.ClassroomReport`). -/
structure ReportRec where
  id : Int
  classId : Int
  reporterId : Int
  createdAt : Nat
deriving DecidableEq, Repr

/-- A row of the `violations` table (`models.Violation`); fields not used
by any aggregation (description, AI-similarity, paste length, …) are
omitted. -/
structure ViolationRec where
  id : Int
  studentId : Int
  assignmentId : Int
  violationType : String
  severity : String
  timeAwaySeconds : Int
  detectedAt : Nat
deriving DecidableEq, Repr

/-- The relational store: one list per table, in insertion order. -/
structure DB where
  users : List UserRec
  classes : List ClassRec
  enrollments : List EnrollmentRec
  assignments : List AssignmentRec
  submissions : List SubmissionRec
  schedules : List ScheduleRec
  classroomReports : List ReportRec
  violations : List ViolationRec
deriving DecidableEq, Repr

/-- Round a rational to the nearest integer, ties to even — the semantics
of Python's built-in `round` (values are modelled as exact rationals). -/
def roundHalfEven (q : ℚ) : Int :=
  let f : Int := ⌊q⌋
  let r : ℚ := q - f
  if r < 1/2 then f
  else if 1/2 < r then f + 1
  else if f % 2 = 0 then f else f + 1

/-- Python's `round(q, ndigits)` on exact rationals. -/
def pyRound (ndigits : Nat) (q : ℚ) : ℚ :=
  ((roundHalfEven (q * (10 : ℚ) ^ ndigits) : ℚ)) / (10 : ℚ) ^ ndigits

/-- `min hi (max lo q)` — the `min(10.0, max(0.0, _))` clamp used by the
engagement score. -/
def clamp (lo hi q : ℚ) : ℚ := min hi (max lo q)

/-- Insert `x` into a list sorted by `key` in descending order, keeping it
sorted (stable: equal keys keep their relative order). -/
def insertDesc {α : Type} (key : α → Nat) (x : α) : List α → List α
  | [] => [x]
  | y :: ys => if key y < key x then x :: y :: ys else y :: insertDesc key x ys

/-- Sort a list by `key` descending — models SQL `ORDER BY key DESC`. -/
def sortDesc {α : Type} (key : α → Nat) (l : List α) : List α :=
  l.foldr (insertDesc key) []

theorem length_insertDesc {α : Type} (key : α → Nat) (x : α) (l : List α) :
    (insertDesc key x l).length = l.length + 1 := by
  induction l with
  | nil => rfl
  | cons y ys ih =>
    simp only [insertDesc]
    split <;> simp [ih]

theorem length_sortDesc {α : Type} (key : α → Nat) (l : List α) :
    (sortDesc key l).length = l.length := by
  induction l with
  | nil => rfl
  | cons y ys ih => simp [sortDesc, List.foldr] at ih ⊢; simp [length_insertDesc, ih]

theorem mem_insertDesc {α : Type} {key : α → Nat} {x y : α} {l : List α} :
    y ∈ insertDesc key x l ↔ y = x ∨ y ∈ l := by
  induction l with
  | nil => simp [insertDesc]
  | cons z zs ih =>
    simp only [insertDesc]
    split
    · simp
    · simp only [List.mem_cons, ih]
      tauto

theorem mem_sortDesc {α : Type} {key : α → Nat} {y : α} {l : List α} :
    y ∈ sortDesc key l ↔ y ∈ l := by
  induction l with
  | nil => simp [sortDesc]
  | cons z zs ih =>
    simp only [sortDesc, List.foldr] at ih ⊢
    simp [mem_insertDesc, ih]

/-! ## HTTP-level error vocabulary

`ApiError` stands for the `HTTPException`s raised by the request handlers
in `main.py`; `statusCode` recovers the numeric status. `CrudError`
distinguishes the two kinds of exception the body of
`crud.create_submission` raises: plain `ValueError`s (mapped by the
endpoint to 400) and the 409 conflict `HTTPException` for duplicates —
which, however, the function's own trailing `except Exception` handler
converts into a `ValueError` before it can escape (see
`create_submission`). -/

inductive ApiError where
  | forbidden (detail : String)
  | notFound (detail : String)
  | badRequest (detail : String)
  | conflict (detail : String)
deriving DecidableEq, Repr

def statusCode : ApiError → Nat
  | .forbidden _ => 403
  | .notFound _ => 404
  | .badRequest _ => 400
  | .conflict _ => 409

inductive CrudError where
  | validation (msg : String)
  | conflict (msg : String)
deriving DecidableEq, Repr

/-! ## Violation store operations (`crud.py`) -/

/-- `schemas.ViolationCreate` request body (validated fields only). -/
structure ViolationCreate where
  studentId : Int
  assignmentId : Int
  violationType : String
  severity : String
  timeAwaySeconds : Int
deriving DecidableEq, Repr

/-- `ViolationCreate.validate_severity`: pydantic accepts exactly the three
fixed severities. -/
def validate_severity (v : String) : Bool :=
  ["low", "medium", "high"].contains v

/-- Fresh autoincrement id: one more than the largest id in use. -/
def freshId (ids : List Int) : Int :=
  (ids.foldr max 0) + 1

/-- `crud.create_violation`: checks that the referenced user and assignment
exist (no role check), then inserts the row.  The second component is the
resulting store (unchanged when a `ValueError` is raised). -/
def create_violation (db : DB) (vin : ViolationCreate) (now : Nat) :
    Except String ViolationRec × DB :=
  match db.users.find? (fun u => u.id == vin.studentId) with
  | none => (.error "Student not found", db)
  | some _ =>
    match db.assignments.find? (fun a => a.id == vin.assignmentId) with
    | none => (.error "Assignment not found", db)
    | some _ =>
      let v : ViolationRec :=
        { id := freshId (db.violations.map (·.id))
          studentId := vin.studentId
          assignmentId := vin.assignmentId
          violationType := vin.violationType
          severity := vin.severity
          timeAwaySeconds := vin.timeAwaySeconds
          detectedAt := now }
      (.ok v, { db with violations := db.violations ++ [v] })

/-- `crud.get_violations_by_assignment`: filter by assignment, newest
first, paginated. -/
def get_violations_by_assignment (db : DB) (assignmentId : Int)
    (skip limit : Nat) : List ViolationRec :=
  (((sortDesc (·.detectedAt) (db.violations.filter (·.assignmentId == assignmentId)))).drop skip).take limit

/-- `crud.get_violations_by_student`: filter by student, newest first,
paginated (default `limit=100`). -/
def get_violations_by_student (db : DB) (studentId : Int)
    (skip limit : Nat) : List ViolationRec :=
  (((sortDesc (·.detectedAt) (db.violations.filter (·.studentId == studentId)))).drop skip).take limit

/-- One step of `severity_counts[violation.severity] += 1`: increments an
existing bucket, or fails with a `KeyError` (`none`) when the severity is
not a key of the histogram.  Python dicts never grow on `+=`. -/
def bumpSeverity : List (String × Nat) → String → Option (List (String × Nat))
  | [], _ => none
  | (k, n) :: rest, sev =>
    if k = sev then some ((k, n + 1) :: rest)
    else (bumpSeverity rest sev).map ((k, n) :: ·)

/-- The severity-counting loop of `get_violation_summary_for_assignment`,
starting from `{'low': 0, 'medium': 0, 'high': 0}`. -/
def tallySeverities : List (String × Nat) → List ViolationRec → Option (List (String × Nat))
  | m, [] => some m
  | m, v :: vs =>
    match bumpSeverity m v.severity with
    | none => none
    | some m' => tallySeverities m' vs

/-- One step of the `violation_types` loop: add the key with count 0 when
absent, then increment — i.e. increment in place or append `(t, 1)`. -/
def bumpType : List (String × Nat) → String → List (String × Nat)
  | [], t => [(t, 1)]
  | (k, n) :: rest, t =>
    if k = t then (k, n + 1) :: rest else (k, n) :: bumpType rest t

/-- The `violation_types` histogram (a Python dict in insertion order). -/
def tallyTypes (vs : List ViolationRec) : List (String × Nat) :=
  vs.foldl (fun m v => bumpType m v.violationType) []

/-- The dictionary returned by `crud.get_violation_summary_for_assignment`
(fields the claims mention; the per-student detail list and raw row list
are direct projections of the same data and are omitted). -/
structure ViolationSummary where
  assignmentId : Int
  totalViolations : Nat
  violationsByType : List (String × Nat)
  violationsBySeverity : List (String × Nat)
  studentsWithViolations : Nat
  totalStudents : Nat
  averageTimeAwaySeconds : ℚ
deriving DecidableEq, Repr

/-- How `get_violation_summary_for_assignment` can raise: the missing
assignment `ValueError`, or the `KeyError` from an out-of-enum severity. -/
inductive SummaryError where
  | notFound
  | keyError
deriving DecidableEq, Repr

/-- `crud.get_violation_summary_for_assignment`: fetches at most the 1000
newest violations of the assignment (`limit=1000`), tallies type and
severity histograms, counts distinct offending students, and averages
`time_away_seconds` (0 when there are no rows), rounded to 2 decimals.
Python's `list(set(...))` has unspecified order; only its length is
reported here, which order cannot affect. -/
def get_violation_summary_for_assignment (db : DB) (assignmentId : Int) :
    Except SummaryError ViolationSummary :=
  match db.assignments.find? (fun a => a.id == assignmentId) with
  | none => .error .notFound
  | some _ =>
    let violations := get_violations_by_assignment db assignmentId 0 1000
    let submissions := db.submissions.filter (·.assignmentId == assignmentId)
    match tallySeverities [("low", 0), ("medium", 0), ("high", 0)] violations with
    | none => .error .keyError
    | some sevHist =>
      let studentIds := (violations.map (·.studentId)).dedup
      let totalTimeAway : Int := (violations.map (·.timeAwaySeconds)).sum
      let avg : ℚ := if violations.length = 0 then 0 else (totalTimeAway : ℚ) / violations.length
      .ok
        { assignmentId := assignmentId
          totalViolations := violations.length
          violationsByType := tallyTypes violations
          violationsBySeverity := sevHist
          studentsWithViolations := studentIds.length
          totalStudents := submissions.length
          averageTimeAwaySeconds := pyRound 2 avg }

/-! ## Submission creation (`crud.create_submission` and both endpoints) -/

/-- `schemas.SubmissionCreate` request body. -/
structure SubmissionCreate where
  assignmentId : Int
  studentId : Int
  timeSpentMinutes : Int
deriving DecidableEq, Repr

/-- The body of the outer `try` of `crud.create_submission`.  Mirrors the
check sequence of the source: input validation, assignment existence,
user existence, role = student, enrollment in the assignment's class (all
`ValueError`s), then the duplicate-(student, assignment) check which
raises the 409 conflict `HTTPException`, and finally the insert.  The
error messages embedded in ids are abbreviated to fixed strings.  The
second component is the resulting store (unchanged on every error
path). -/
def create_submission_body (db : DB) (subIn : SubmissionCreate)
    (studentId : Option Int) (now : Nat) : Except CrudError SubmissionRec × DB :=
  let actualStudentId := studentId.getD subIn.studentId
  if subIn.assignmentId ≤ 0 then
    (.error (.validation "Assignment ID must be a positive integer"), db)
  else if actualStudentId ≤ 0 then
    (.error (.validation "Student ID must be a positive integer"), db)
  else if subIn.timeSpentMinutes < 0 then
    (.error (.validation "Time spent must be a non-negative integer"), db)
  else
    match db.assignments.find? (fun a => a.id == subIn.assignmentId) with
    | none => (.error (.validation "Assignment not found"), db)
    | some assignment =>
      match db.users.find? (fun u => u.id == actualStudentId) with
      | none => (.error (.validation "User not found"), db)
      | some student =>
        if student.role ≠ .student then
          (.error (.validation "User is not a student"), db)
        else
          match db.enrollments.find?
              (fun e => e.studentId == actualStudentId && e.classId == assignment.classId) with
          | none =>
            (.error (.validation "Student is not enrolled in the class for this assignment"), db)
          | some _ =>
            match db.submissions.find?
                (fun s => s.assignmentId == subIn.assignmentId && s.studentId == actualStudentId) with
            | some _ =>
              (.error (.conflict "Student has already submitted this assignment"), db)
            | none =>
              let s : SubmissionRec :=
                { id := freshId (db.submissions.map (·.id))
                  assignmentId := subIn.assignmentId
                  studentId := actualStudentId
                  grade := none
                  timeSpentMinutes := (subIn.timeSpentMinutes : ℚ)
                  content := none
                  linkUrl := none
                  filePath := none
                  fileName := none
                  submittedAt := now }
              (.ok s, { db with submissions := db.submissions ++ [s] })

/-- `crud.create_submission`: the body wrapped in the function's own
exception handlers.  `except ValueError` re-raises validation errors
unchanged, but the trailing blanket `except Exception` catches the 409
conflict `HTTPException` too — there is no `except HTTPException` — and
converts it into `ValueError(f"Failed to create submission: {str(e)}")`,
where `str` of the exception is `"409: <detail>"`.  So no conflict error
ever leaves this function. -/
def create_submission (db : DB) (subIn : SubmissionCreate)
    (studentId : Option Int) (now : Nat) : Except CrudError SubmissionRec × DB :=
  match create_submission_body db subIn studentId now with
  | (.ok s, db') => (.ok s, db')
  | (.error (.validation m), db') => (.error (.validation m), db')
  | (.error (.conflict m), db') =>
    (.error (.validation ("Failed to create submission: 409: " ++ m)), db')

/-- `main.create_new_submission` (`POST /submissions/`): student-only;
always passes the authenticated user's id to the crud layer; a 409
conflict `HTTPException` would pass through unchanged while `ValueError`s
become 400s — but the crud layer only ever delivers `ValueError`s. -/
def create_new_submission (db : DB) (currentUser : UserRec)
    (subIn : SubmissionCreate) (now : Nat) : Except ApiError SubmissionRec × DB :=
  if currentUser.role ≠ .student then
    (.error (.forbidden "Not authorized to create submissions"), db)
  else
    match create_submission db subIn (some currentUser.id) now with
    | (.ok s, db') => (.ok s, db')
    | (.error (.conflict m), db') => (.error (.conflict m), db')
    | (.error (.validation m), db') => (.error (.badRequest m), db')

/-- The multipart form consumed by `POST /submissions/upload/`.  The file
part (extension allow-list, size cap, disk write) is external I/O and is
modelled as the optional stored path/name it produces. -/
structure UploadForm where
  assignmentId : Int
  content : Option String
  linkUrl : Option String
  timeSpentMinutes : ℚ
  filePath : Option String
  fileName : Option String
deriving DecidableEq, Repr

/-- `main.create_submission_with_file` (`POST /submissions/upload/`):
student-only.  If a submission for (assignment, current user) exists it is
updated in place (fields overwritten only when supplied); otherwise a new
row is inserted.  Note that, unlike `crud.create_submission`, this handler
checks neither that the assignment exists nor that the student is enrolled
in its class. -/
def create_submission_with_file (db : DB) (currentUser : UserRec)
    (form : UploadForm) (now : Nat) : Except ApiError SubmissionRec × DB :=
  if currentUser.role ≠ .student then
    (.error (.forbidden "Not authorized to create submissions"), db)
  else
    match db.submissions.find?
        (fun s => s.assignmentId == form.assignmentId && s.studentId == currentUser.id) with
    | some s0 =>
      let s' : SubmissionRec :=
        { s0 with
          content := if form.content.isSome then form.content else s0.content
          linkUrl := if form.linkUrl.isSome then form.linkUrl else s0.linkUrl
          filePath := if form.filePath.isSome then form.filePath else s0.filePath
          fileName := if form.filePath.isSome then form.fileName else s0.fileName
          timeSpentMinutes := form.timeSpentMinutes
          submittedAt := now }
      (.ok s', { db with submissions := db.submissions.map (fun s => if s.id == s0.id then s' else s) })
    | none =>
      let s : SubmissionRec :=
        { id := freshId (db.submissions.map (·.id))
          assignmentId := form.assignmentId
          studentId := currentUser.id
          grade := none
          timeSpentMinutes := form.timeSpentMinutes
          content := form.content
          linkUrl := form.linkUrl
          filePath := form.filePath
          fileName := form.fileName
          submittedAt := now }
      (.ok s, { db with submissions := db.submissions ++ [s] })

/-! ## Class deletion and per-class listings (`crud.delete_class`) -/

/-- `db.query(Enrollment).filter(Enrollment.class_id == cid).all()`. -/
def enrollmentsByClass (db : DB) (classId : Int) : List EnrollmentRec :=
  db.enrollments.filter (·.classId == classId)

/-- `db.query(Assignment).filter(Assignment.class_id == cid).all()`. -/
def assignmentsByClass (db : DB) (classId : Int) : List AssignmentRec :=
  db.assignments.filter (·.classId == classId)

/-- `db.query(Schedule).filter(Schedule.class_id == cid).all()`. -/
def schedulesByClass (db : DB) (classId : Int) : List ScheduleRec :=
  db.schedules.filter (·.classId == classId)

/-- `crud.get_classroom_reports_by_class`: newest first, paginated. -/
def get_classroom_reports_by_class (db : DB) (classId : Int)
    (skip limit : Nat) : List ReportRec :=
  (((sortDesc (·.createdAt) (db.classroomReports.filter (·.classId == classId)))).drop skip).take limit

/-- `crud.delete_class`: returns `False` leaving the store untouched when
the class id is absent; otherwise deletes the class row and — through the
`cascade="all, delete-orphan"` relationships — its enrollments,
assignments (and their submissions), schedules, and classroom reports;
violations referencing the deleted assignments go with them through the
violations table's `ON DELETE CASCADE` foreign key. -/
def delete_class (db : DB) (classId : Int) : Bool × DB :=
  match db.classes.find? (fun c => c.id == classId) with
  | none => (false, db)
  | some _ =>
    let deadAssignmentIds := (db.assignments.filter (·.classId == classId)).map (·.id)
    (true,
      { db with
        classes := db.classes.eraseP (fun c => c.id == classId)
        enrollments := db.enrollments.filter (fun e => !(e.classId == classId))
        assignments := db.assignments.filter (fun a => !(a.classId == classId))
        schedules := db.schedules.filter (fun s => !(s.classId == classId))
        classroomReports := db.classroomReports.filter (fun r => !(r.classId == classId))
        submissions := db.submissions.filter (fun s => !(deadAssignmentIds.contains s.assignmentId))
        violations := db.violations.filter (fun v => !(deadAssignmentIds.contains v.assignmentId)) })

/-- `main.get_violations_for_student` (`GET /violations/student/{id}`):
students may only read their own violations; teachers and admins may read
anyone's.  The handler calls `crud.get_violations_by_student` with the
default pagination. -/
def get_violations_for_student (db : DB) (currentUser : UserRec) (studentId : Int) :
    Except ApiError (List ViolationRec) :=
  if currentUser.role = .student ∧ currentUser.id ≠ studentId then
    .error (.forbidden "Not authorized to view violations for this student")
  else
    .ok (get_violations_by_student db studentId 0 100)

/-! ## Engagement insights (`main.get_engagement_insights`) -/

/-- The metrics part of the `GET /insights/engagement/{assignment_id}`
response (identity and timestamp fields omitted). -/
structure EngagementSummary where
  assignmentId : Int
  totalSubmissions : Nat
  averageTimeSpent : ℚ
  engagementScore : ℚ
deriving DecidableEq, Repr

/-- `main.get_engagement_insights`: teacher/admin only; teachers must be
the assignment's creator; zero submissions yield the zero summary;
otherwise the average time and the clamped heuristic score are computed
and rounded to one decimal. -/
def get_engagement_insights (db : DB) (currentUser : UserRec)
    (assignmentId : Int) : Except ApiError EngagementSummary :=
  if currentUser.role ≠ .teacher ∧ currentUser.role ≠ .admin then
    .error (.forbidden "Not authorized to view engagement insights")
  else
    match db.assignments.find? (fun a => a.id == assignmentId) with
    | none => .error (.notFound "Assignment not found")
    | some assignment =>
      if currentUser.role = .teacher ∧ assignment.creatorId ≠ currentUser.id then
        .error (.forbidden "Not authorized to view insights for this assignment")
      else
        let submissions := db.submissions.filter (·.assignmentId == assignmentId)
        if submissions.length = 0 then
          .ok { assignmentId := assignmentId, totalSubmissions := 0
                averageTimeSpent := 0, engagementScore := 0 }
        else
          let totalSubmissions := submissions.length
          let totalTimeSpent : ℚ := (submissions.map (·.timeSpentMinutes)).sum
          let averageTimeSpent : ℚ := totalTimeSpent / totalSubmissions
          let engagementScore : ℚ :=
            min 10 (max 0 ((totalSubmissions : ℚ) * (4/10) + averageTimeSpent / 10 * (4/10) + 2))
          .ok { assignmentId := assignmentId
                totalSubmissions := totalSubmissions
                averageTimeSpent := pyRound 1 averageTimeSpent
                engagementScore := pyRound 1 engagementScore }

/-- Written from the spec sentence of C2 (with the rounding the code
applies): zero submissions give the zero summary, otherwise
`average_time_spent = total_time_spent / submission_count` and
`engagement_score = clamp(0, 10, 0.4*count + 0.04*avg + 2.0)`, each
rounded to one decimal. -/
def engagementSpec (assignmentId : Int) (submissions : List SubmissionRec) :
    EngagementSummary :=
  if submissions.length = 0 then
    { assignmentId := assignmentId, totalSubmissions := 0
      averageTimeSpent := 0, engagementScore := 0 }
  else
    let count : ℚ := submissions.length
    let avg : ℚ := (submissions.map (·.timeSpentMinutes)).sum / count
    { assignmentId := assignmentId
      totalSubmissions := submissions.length
      averageTimeSpent := pyRound 1 avg
      engagementScore := pyRound 1 (clamp 0 10 ((4/10) * count + (4/100) * avg + 2)) }

/-! ## Teacher reports (`main.get_teacher_reports`) -/

/-- One entry of the report's `student_performance` list (name fields
omitted). -/
structure StudentPerf where
  studentId : Int
  classId : Int
  averageGradeInClass : ℚ
  totalAssignmentsSubmitted : Nat
  totalAssignmentsAvailable : Nat
  submissionRate : ℚ
deriving DecidableEq, Repr

/-- One entry of the report's `class_performance` list (the nested
per-class `students` list is the corresponding slice of
`student_performance` and is omitted). -/
structure ClassPerf where
  classId : Int
  totalStudents : Nat
  totalAssignments : Nat
  averageGrade : ℚ
  submissionRate : ℚ
deriving DecidableEq, Repr

/-- The `GET /teachers/me/reports` response. -/
structure TeacherReport where
  classPerformance : List ClassPerf
  studentPerformance : List StudentPerf
  totalClasses : Nat
  totalStudents : Nat
  overallAverageGrade : ℚ
  overallSubmissionRate : ℚ
deriving DecidableEq, Repr

/-- The submissions the report attributes to one student in one class:
`Submission.student_id == student.id` and assignment among the class's
assignment ids. -/
def studentClassSubmissions (db : DB) (assignmentIds : List Int)
    (studentId : Int) : List SubmissionRec :=
  db.submissions.filter (fun s => s.studentId == studentId && assignmentIds.contains s.assignmentId)

/-- The body of the per-enrollment loop of `get_teacher_reports`: the
`student_data` dict built for one enrolled student. -/
def studentEntry (db : DB) (classId : Int) (assignmentIds : List Int)
    (totalAssignments : Nat) (studentId : Int) : StudentPerf :=
  let subs := studentClassSubmissions db assignmentIds studentId
  let grades := subs.filterMap (·.grade)
  let avgGrade : ℚ := if grades.length = 0 then 0 else grades.sum / grades.length
  { studentId := studentId
    classId := classId
    averageGradeInClass := pyRound 2 avgGrade
    totalAssignmentsSubmitted := subs.length
    totalAssignmentsAvailable := totalAssignments
    submissionRate :=
      pyRound 2 (if 0 < totalAssignments then (subs.length : ℚ) / totalAssignments * 100 else 0) }

/-- The per-class enrollment loop of `get_teacher_reports`, returning the
accumulated `(total_submissions, total_grades, graded_submissions)`
counters and the `student_data` entries in order.  Enrollments whose user
row is missing are skipped (`if not student: continue`). -/
def reportLoop (db : DB) (classId : Int) (assignmentIds : List Int)
    (totalAssignments : Nat) :
    List EnrollmentRec → Nat × ℚ × Nat × List StudentPerf
  | [] => (0, 0, 0, [])
  | e :: es =>
    let (ts, tg, gc, entries) := reportLoop db classId assignmentIds totalAssignments es
    match db.users.find? (fun u => u.id == e.studentId) with
    | none => (ts, tg, gc, entries)
    | some student =>
      let subs := studentClassSubmissions db assignmentIds student.id
      let grades := subs.filterMap (·.grade)
      (subs.length + ts, grades.sum + tg, grades.length + gc,
        studentEntry db classId assignmentIds totalAssignments student.id :: entries)

/-- The per-class part of `get_teacher_reports`: the `class_data` dict and
the class's slice of `student_performance`. -/
def classReport (db : DB) (c : ClassRec) : ClassPerf × List StudentPerf :=
  let assignments := db.assignments.filter (·.classId == c.id)
  let enrollments := db.enrollments.filter (·.classId == c.id)
  let totalAssignments := assignments.length
  let totalStudents := enrollments.length
  let (totalSubs, totalGrades, gradedCount, entries) :=
    reportLoop db c.id (assignments.map (·.id)) totalAssignments enrollments
  let classAvgGrade : ℚ := if 0 < gradedCount then totalGrades / gradedCount else 0
  let classSubmissionRate : ℚ :=
    if 0 < totalStudents ∧ 0 < totalAssignments then
      (totalSubs : ℚ) / ((totalStudents : ℚ) * totalAssignments) * 100
    else 0
  ({ classId := c.id
     totalStudents := totalStudents
     totalAssignments := totalAssignments
     averageGrade := pyRound 2 classAvgGrade
     submissionRate := pyRound 2 classSubmissionRate }, entries)

/-- `crud.get_classes_by_teacher` with the handler's default pagination
(`skip=0`, `limit=100`). -/
def get_classes_by_teacher (db : DB) (teacherId : Int) (skip limit : Nat) :
    List ClassRec :=
  ((db.classes.filter (·.teacherId == some teacherId)).drop skip).take limit

/-- `main.get_teacher_reports` (`GET /teachers/me/reports`): teacher-only;
rolls up per-student and per-class performance over the teacher's classes
and double-averages the per-student values into the overall summary. -/
def get_teacher_reports (db : DB) (currentUser : UserRec) :
    Except ApiError TeacherReport :=
  if currentUser.role ≠ .teacher then
    .error (.forbidden "Not authorized to view teacher reports")
  else
    let teacherClasses := get_classes_by_teacher db currentUser.id 0 100
    let perClass := teacherClasses.map (classReport db)
    let studentPerformance := perClass.flatMap Prod.snd
    let overallAvg : ℚ :=
      if studentPerformance.length = 0 then 0
      else pyRound 2 ((studentPerformance.map (·.averageGradeInClass)).sum / studentPerformance.length)
    let overallRate : ℚ :=
      if studentPerformance.length = 0 then 0
      else pyRound 2 ((studentPerformance.map (·.submissionRate)).sum / studentPerformance.length)
    .ok { classPerformance := perClass.map Prod.fst
          studentPerformance := studentPerformance
          totalClasses := teacherClasses.length
          totalStudents := studentPerformance.length
          overallAverageGrade := overallAvg
          overallSubmissionRate := overallRate }

/-! ## Helper lemmas about the severity tally -/

theorem bumpSeverity_spec {m m' : List (String × Nat)} {sev : String}
    (h : bumpSeverity m sev = some m') :
    (m'.map (·.2)).sum = (m.map (·.2)).sum + 1 ∧ m'.map (·.1) = m.map (·.1) := by
  induction m generalizing m' with
  | nil => simp [bumpSeverity] at h
  | cons kv rest ih =>
    obtain ⟨k, n⟩ := kv
    simp only [bumpSeverity] at h
    split at h
    · cases h
      constructor
      · simp only [List.map_cons, List.sum_cons]
        omega
      · simp
    · cases heq : bumpSeverity rest sev with
      | none => rw [heq] at h; simp at h
      | some r =>
        rw [heq] at h
        simp only [Option.map_some'] at h
        cases h
        obtain ⟨h1, h2⟩ := ih heq
        constructor
        · simp only [List.map_cons, List.sum_cons, h1]
          omega
        · simp only [List.map_cons, h2]

theorem tallySeverities_spec {vs : List ViolationRec} :
    ∀ {m m' : List (String × Nat)}, tallySeverities m vs = some m' →
    (m'.map (·.2)).sum = (m.map (·.2)).sum + vs.length ∧ m'.map (·.1) = m.map (·.1) := by
  induction vs with
  | nil =>
    intro m m' h
    simp only [tallySeverities] at h
    cases h
    simp
  | cons v rest ih =>
    intro m m' h
    simp only [tallySeverities] at h
    cases heq : bumpSeverity m v.severity with
    | none => rw [heq] at h; simp at h
    | some m1 =>
      rw [heq] at h
      obtain ⟨hb1, hb2⟩ := bumpSeverity_spec heq
      obtain ⟨ht1, ht2⟩ := ih h
      refine ⟨?_, ht2.trans hb2⟩
      rw [ht1, hb1]
      simp only [List.length_cons]
      omega

/-! ## Claims about the violation summary (C4, C5, C9) and violation creation (C10) -/

/-- C5: in any successfully computed violation summary the severity
histogram has exactly the keys low/medium/high and its counts sum to
`total_violations`; the creation validator accepts exactly those three
severities. -/
theorem severity_histogram_sums_to_total (db : DB) (assignmentId : Int)
    (s : ViolationSummary)
    (h : get_violation_summary_for_assignment db assignmentId = .ok s) :
    (s.violationsBySeverity.map (·.2)).sum = s.totalViolations ∧
    s.violationsBySeverity.map (·.1) = ["low", "medium", "high"] ∧
    (∀ sev, validate_severity sev = true ↔ (sev = "low" ∨ sev = "medium" ∨ sev = "high")) := by
  simp only [get_violation_summary_for_assignment] at h
  split at h
  · exact absurd h (by simp)
  · split at h
    · exact absurd h (by simp)
    · rename_i sevHist heq
      obtain ⟨h1, h2⟩ := tallySeverities_spec heq
      cases h
      refine ⟨?_, ?_, ?_⟩
      · simpa using h1
      · simpa using h2
      · intro sev
        simp [validate_severity]

def dbC5 : DB :=
  { users := [{ id := 2, username := "stu", role := .student }]
    classes := []
    enrollments := []
    assignments := [{ id := 1, name := "hw", classId := 5, creatorId := 3 }]
    submissions := []
    schedules := []
    classroomReports := []
    violations :=
      [{ id := 1, studentId := 2, assignmentId := 1, violationType := "tab_switch",
         severity := "low", timeAwaySeconds := 10, detectedAt := 5 },
       { id := 2, studentId := 2, assignmentId := 1, violationType := "copy_paste",
         severity := "high", timeAwaySeconds := 20, detectedAt := 3 }] }

def summaryC5 : ViolationSummary :=
  { assignmentId := 1, totalViolations := 2
    violationsByType := [("tab_switch", 1), ("copy_paste", 1)]
    violationsBySeverity := [("low", 1), ("medium", 0), ("high", 1)]
    studentsWithViolations := 1, totalStudents := 0
    averageTimeAwaySeconds := 15 }

theorem severity_histogram_sums_to_total_witness :
    (summaryC5.violationsBySeverity.map (·.2)).sum = summaryC5.totalViolations ∧
    summaryC5.violationsBySeverity.map (·.1) = ["low", "medium", "high"] ∧
    (∀ sev, validate_severity sev = true ↔ (sev = "low" ∨ sev = "medium" ∨ sev = "high")) :=
  severity_histogram_sums_to_total dbC5 1 summaryC5 (by
    simp [get_violation_summary_for_assignment, get_violations_by_assignment, dbC5,
          sortDesc, insertDesc, tallySeverities, bumpSeverity, tallyTypes, bumpType,
          List.dedup, summaryC5, pyRound, roundHalfEven]
    norm_num)

/-- C9: the violation summary is computed over at most the 1000 newest
violations: the reported `total_violations` is the actual number of stored
violations for the assignment capped at 1000, so with more than 1000 rows
every derived statistic silently covers only that truncated subset. -/
theorem violation_summary_capped_at_1000 (db : DB) (assignmentId : Int)
    (s : ViolationSummary)
    (h : get_violation_summary_for_assignment db assignmentId = .ok s) :
    s.totalViolations = min 1000 (db.violations.filter (·.assignmentId == assignmentId)).length := by
  simp only [get_violation_summary_for_assignment] at h
  split at h
  · exact absurd h (by simp)
  · split at h
    · exact absurd h (by simp)
    · cases h
      show (get_violations_by_assignment db assignmentId 0 1000).length = _
      simp only [get_violations_by_assignment, List.drop_zero, List.length_take,
        length_sortDesc]

def dbC9 : DB :=
  { users := []
    classes := []
    enrollments := []
    assignments := [{ id := 1, name := "hw", classId := 5, creatorId := 3 }]
    submissions := []
    schedules := []
    classroomReports := []
    violations :=
      [{ id := 1, studentId := 2, assignmentId := 1, violationType := "tab_switch",
         severity := "low", timeAwaySeconds := 4, detectedAt := 1 },
       { id := 2, studentId := 3, assignmentId := 1, violationType := "tab_switch",
         severity := "medium", timeAwaySeconds := 6, detectedAt := 2 },
       { id := 3, studentId := 3, assignmentId := 7, violationType := "tab_switch",
         severity := "high", timeAwaySeconds := 6, detectedAt := 3 }] }

def summaryC9 : ViolationSummary :=
  { assignmentId := 1, totalViolations := 2
    violationsByType := [("tab_switch", 2)]
    violationsBySeverity := [("low", 1), ("medium", 1), ("high", 0)]
    studentsWithViolations := 2, totalStudents := 0
    averageTimeAwaySeconds := 5 }

theorem violation_summary_capped_at_1000_witness :
    summaryC9.totalViolations = min 1000 (dbC9.violations.filter (·.assignmentId == 1)).length :=
  violation_summary_capped_at_1000 dbC9 1 summaryC9 (by
    simp [get_violation_summary_for_assignment, get_violations_by_assignment, dbC9,
          sortDesc, insertDesc, tallySeverities, bumpSeverity, tallyTypes, bumpType,
          List.dedup, summaryC9, pyRound, roundHalfEven]
    norm_num)

/-- C4 (amended): for a present assignment with zero violations the
summary succeeds with `total_violations = 0`, `average_time_away = 0`, an
empty type histogram and the fixed severity histogram with all three
buckets at zero; a missing assignment id yields the "not found" error. -/
theorem violation_summary_zero_rows (db : DB) (assignmentId : Int) :
    (db.assignments.find? (fun a => a.id == assignmentId) = none →
      get_violation_summary_for_assignment db assignmentId = .error .notFound) ∧
    (∀ a, db.assignments.find? (fun a => a.id == assignmentId) = some a →
      db.violations.filter (·.assignmentId == assignmentId) = [] →
      get_violation_summary_for_assignment db assignmentId = .ok
        { assignmentId := assignmentId
          totalViolations := 0
          violationsByType := []
          violationsBySeverity := [("low", 0), ("medium", 0), ("high", 0)]
          studentsWithViolations := 0
          totalStudents := (db.submissions.filter (·.assignmentId == assignmentId)).length
          averageTimeAwaySeconds := 0 }) := by
  constructor
  · intro hnone
    simp [get_violation_summary_for_assignment, hnone]
  · intro a hsome hvempty
    simp only [get_violation_summary_for_assignment, hsome]
    have hviol : get_violations_by_assignment db assignmentId 0 1000 = [] := by
      simp [get_violations_by_assignment, hvempty, sortDesc]
    rw [hviol]
    simp only [tallySeverities]
    have : pyRound 2 0 = 0 := by
      simp [pyRound, roundHalfEven]
    simp [tallyTypes, List.dedup, this]

def dbC4 : DB :=
  { users := []
    classes := []
    enrollments := []
    assignments := [{ id := 1, name := "hw", classId := 5, creatorId := 3 }]
    submissions := []
    schedules := []
    classroomReports := []
    violations := [{ id := 9, studentId := 2, assignmentId := 42, violationType := "tab_switch",
                     severity := "low", timeAwaySeconds := 4, detectedAt := 1 }] }

theorem violation_summary_zero_rows_witness :
    get_violation_summary_for_assignment dbC4 99 = .error .notFound ∧
    get_violation_summary_for_assignment dbC4 1 = .ok
      { assignmentId := 1
        totalViolations := 0
        violationsByType := []
        violationsBySeverity := [("low", 0), ("medium", 0), ("high", 0)]
        studentsWithViolations := 0
        totalStudents := (dbC4.submissions.filter (·.assignmentId == 1)).length
        averageTimeAwaySeconds := 0 } :=
  ⟨(violation_summary_zero_rows dbC4 99).1 (by simp [dbC4]),
   (violation_summary_zero_rows dbC4 1).2
     { id := 1, name := "hw", classId := 5, creatorId := 3 }
     (by simp [dbC4]) (by simp [dbC4])⟩

/-- C4 (counterexample to the claim as stated): with zero violations the
returned severity histogram is not an empty mapping — it is the fixed
three-bucket dictionary with zero counts. -/
theorem violation_summary_zero_rows_counterexample :
    (get_violation_summary_for_assignment dbC4 1).toOption.map (·.violationsBySeverity) =
      some [("low", 0), ("medium", 0), ("high", 0)] ∧
    ([("low", 0), ("medium", 0), ("high", 0)] : List (String × Nat)) ≠ [] := by
  constructor
  · have h := (violation_summary_zero_rows dbC4 1).2
      { id := 1, name := "hw", classId := 5, creatorId := 3 }
      (by simp [dbC4]) (by simp [dbC4])
    rw [h]
    rfl
  · simp

/-- C10: `crud.create_violation` fails exactly when the referenced user id
or assignment id is absent — the referenced user's role is never examined
— and on success appends one violation row carrying the given student id
(so a violation can be recorded against a teacher or an admin). -/
theorem create_violation_checks (db : DB) (vin : ViolationCreate) (now : Nat) :
    ((create_violation db vin now).1.isOk = true ↔
      ((∃ u ∈ db.users, u.id = vin.studentId) ∧
       (∃ a ∈ db.assignments, a.id = vin.assignmentId))) ∧
    (∀ v db', create_violation db vin now = (.ok v, db') →
      db'.violations = db.violations ++ [v] ∧ v.studentId = vin.studentId ∧
      v.assignmentId = vin.assignmentId ∧ v.severity = vin.severity) ∧
    (∀ msg db', create_violation db vin now = (.error msg, db') → db' = db) := by
  cases hu : db.users.find? (fun u => u.id == vin.studentId) with
  | none =>
    have hnex : ¬ ∃ u ∈ db.users, u.id = vin.studentId := by
      rw [List.find?_eq_none] at hu
      rintro ⟨u, hmem, hid⟩
      exact absurd (by simpa using hid) (by simpa using hu u hmem)
    refine ⟨?_, ?_, ?_⟩
    · simp [create_violation, hu, Except.isOk, Except.toBool, hnex]
    · intro v db' h
      simp [create_violation, hu] at h
    · intro msg db' h
      simp only [create_violation, hu, Prod.mk.injEq] at h
      exact h.2.symm
  | some u =>
    have hex : ∃ u ∈ db.users, u.id = vin.studentId := by
      refine ⟨u, List.mem_of_find?_eq_some hu, ?_⟩
      simpa using List.find?_some hu
    cases ha : db.assignments.find? (fun a => a.id == vin.assignmentId) with
    | none =>
      have hnex : ¬ ∃ a ∈ db.assignments, a.id = vin.assignmentId := by
        rw [List.find?_eq_none] at ha
        rintro ⟨a, hmem, hid⟩
        exact absurd (by simpa using hid) (by simpa using ha a hmem)
      refine ⟨?_, ?_, ?_⟩
      · simp [create_violation, hu, ha, Except.isOk, Except.toBool, hnex]
      · intro v db' h
        simp [create_violation, hu, ha] at h
      · intro msg db' h
        simp only [create_violation, hu, ha, Prod.mk.injEq] at h
        exact h.2.symm
    | some a =>
      have hexa : ∃ a ∈ db.assignments, a.id = vin.assignmentId := by
        refine ⟨a, List.mem_of_find?_eq_some ha, ?_⟩
        simpa using List.find?_some ha
      refine ⟨?_, ?_, ?_⟩
      · simp [create_violation, hu, ha, Except.isOk, Except.toBool, hex, hexa]
      · intro v db' h
        simp only [create_violation, hu, ha, Prod.mk.injEq] at h
        obtain ⟨hv, hdb⟩ := h
        cases hv
        subst hdb
        exact ⟨rfl, rfl, rfl, rfl⟩
      · intro msg db' h
        simp [create_violation, hu, ha] at h

def dbC10 : DB :=
  { users := [{ id := 7, username := "prof", role := .teacher }]
    classes := []
    enrollments := []
    assignments := [{ id := 4, name := "hw", classId := 5, creatorId := 7 }]
    submissions := []
    schedules := []
    classroomReports := []
    violations := [] }

theorem create_violation_checks_witness :
    (create_violation dbC10
      { studentId := 7, assignmentId := 4, violationType := "tab_switch",
        severity := "low", timeAwaySeconds := 3 } 11).1.isOk = true :=
  (create_violation_checks dbC10
      { studentId := 7, assignmentId := 4, violationType := "tab_switch",
        severity := "low", timeAwaySeconds := 3 } 11).1.mpr
    ⟨⟨{ id := 7, username := "prof", role := .teacher }, by simp [dbC10], rfl⟩,
     ⟨{ id := 4, name := "hw", classId := 5, creatorId := 7 }, by simp [dbC10], rfl⟩⟩

/-! ## Claims about access scoping (C7) and the class-deletion cascade (C8) -/

/-- C7: a student asking for another student's violations is rejected with
403; any list a student does receive holds only their own violations; and
the response a student receives for themselves is unchanged by violations
belonging to any other student. -/
theorem student_violations_scoped_to_self (db : DB) (currentUser : UserRec) :
    (∀ studentId, currentUser.role = .student → currentUser.id ≠ studentId →
      get_violations_for_student db currentUser studentId =
        .error (.forbidden "Not authorized to view violations for this student") ∧
      statusCode (.forbidden "Not authorized to view violations for this student") = 403) ∧
    (∀ studentId vs, currentUser.role = .student →
      get_violations_for_student db currentUser studentId = .ok vs →
      ∀ v ∈ vs, v.studentId = currentUser.id) ∧
    (∀ v', v'.studentId ≠ currentUser.id →
      get_violations_for_student { db with violations := v' :: db.violations }
          currentUser currentUser.id =
        get_violations_for_student db currentUser currentUser.id) := by
  refine ⟨?_, ?_, ?_⟩
  · intro studentId hrole hne
    refine ⟨?_, rfl⟩
    simp [get_violations_for_student, hrole, hne]
  · intro studentId vs hrole hok v hmem
    simp only [get_violations_for_student] at hok
    split at hok
    · exact absurd hok (by simp)
    · rename_i hcond
      have hid : currentUser.id = studentId := by
        by_contra hne
        exact hcond ⟨hrole, hne⟩
      cases hok
      have hv : v ∈ db.violations.filter (·.studentId == studentId) := by
        have h1 := List.take_subset 100
          ((sortDesc (·.detectedAt) (db.violations.filter (·.studentId == studentId))).drop 0) hmem
        have h2 := List.drop_subset 0
          (sortDesc (·.detectedAt) (db.violations.filter (·.studentId == studentId))) h1
        exact mem_sortDesc.mp h2
      have := (List.mem_filter.mp hv).2
      simpa [hid] using this
  · intro v' hne
    have hfilter : ({ db with violations := v' :: db.violations } : DB).violations.filter
        (·.studentId == currentUser.id) = db.violations.filter (·.studentId == currentUser.id) := by
      simp only []
      rw [List.filter_cons_of_neg (by simpa using hne)]
    simp [get_violations_for_student, get_violations_by_student, hfilter]

def stuC7 : UserRec := { id := 2, username := "alice", role := .student }

def dbC7 : DB :=
  { users := [stuC7, { id := 3, username := "bob", role := .student }]
    classes := []
    enrollments := []
    assignments := []
    submissions := []
    schedules := []
    classroomReports := []
    violations :=
      [{ id := 1, studentId := 2, assignmentId := 1, violationType := "tab_switch",
         severity := "low", timeAwaySeconds := 4, detectedAt := 1 }] }

def vOtherC7 : ViolationRec :=
  { id := 5, studentId := 3, assignmentId := 1, violationType := "copy_paste",
    severity := "high", timeAwaySeconds := 30, detectedAt := 9 }

theorem student_violations_scoped_to_self_witness :
    (get_violations_for_student dbC7 stuC7 3 =
      .error (.forbidden "Not authorized to view violations for this student")) ∧
    (get_violations_for_student { dbC7 with violations := vOtherC7 :: dbC7.violations }
        stuC7 stuC7.id =
      get_violations_for_student dbC7 stuC7 stuC7.id) :=
  ⟨((student_violations_scoped_to_self dbC7 stuC7).1 3 rfl (by decide)).1,
   (student_violations_scoped_to_self dbC7 stuC7).2.2 vOtherC7 (by decide)⟩

theorem filter_key_after_filter_not {α : Type} (key : α → Int) (cid : Int) (l : List α) :
    (l.filter (fun a => !(key a == cid))).filter (fun a => key a == cid) = [] := by
  induction l with
  | nil => rfl
  | cons x xs ih =>
    by_cases h : key x = cid
    · simp [List.filter_cons, h, ih]
    · simp [List.filter_cons, h, ih]

theorem filter_key_after_filter_not_ne {α : Type} (key : α → Int) (cid oid : Int)
    (hne : oid ≠ cid) (l : List α) :
    (l.filter (fun a => !(key a == cid))).filter (fun a => key a == oid) =
      l.filter (fun a => key a == oid) := by
  induction l with
  | nil => rfl
  | cons x xs ih =>
    by_cases h : key x = cid
    · have h2 : ¬ (key x = oid) := fun hx => hne (by rw [← hx, h])
      simp [List.filter_cons, h, h2, ih, hne, Ne.symm hne]
    · by_cases h2 : key x = oid
      · simp [List.filter_cons, h, h2, ih, hne, Ne.symm hne]
      · simp [List.filter_cons, h, h2, ih]

/-- C8: `delete_class` on a present class reports success and afterwards
the per-class listings of enrollments, assignments, schedules and
classroom reports for that class id are all empty, while the listings for
every other class id are untouched; on a missing class id it returns
`False` and leaves the store unchanged. -/
theorem delete_class_cascades (db : DB) (classId : Int) :
    (db.classes.find? (fun c => c.id == classId) = none →
      delete_class db classId = (false, db)) ∧
    (∀ c, db.classes.find? (fun c => c.id == classId) = some c →
      (delete_class db classId).1 = true ∧
      enrollmentsByClass (delete_class db classId).2 classId = [] ∧
      assignmentsByClass (delete_class db classId).2 classId = [] ∧
      schedulesByClass (delete_class db classId).2 classId = [] ∧
      (∀ skip limit, get_classroom_reports_by_class (delete_class db classId).2 classId skip limit = []) ∧
      (∀ otherId, otherId ≠ classId →
        enrollmentsByClass (delete_class db classId).2 otherId = enrollmentsByClass db otherId ∧
        assignmentsByClass (delete_class db classId).2 otherId = assignmentsByClass db otherId ∧
        schedulesByClass (delete_class db classId).2 otherId = schedulesByClass db otherId ∧
        (∀ skip limit, get_classroom_reports_by_class (delete_class db classId).2 otherId skip limit =
          get_classroom_reports_by_class db otherId skip limit))) := by
  constructor
  · intro hnone
    simp [delete_class, hnone]
  · intro c hsome
    simp only [delete_class, hsome]
    refine ⟨by simp, ?_, ?_, ?_, ?_, ?_⟩
    · exact filter_key_after_filter_not (·.classId) classId db.enrollments
    · exact filter_key_after_filter_not (·.classId) classId db.assignments
    · exact filter_key_after_filter_not (·.classId) classId db.schedules
    · intro skip limit
      simp only [get_classroom_reports_by_class]
      rw [filter_key_after_filter_not (·.classId) classId db.classroomReports]
      simp [sortDesc]
    · intro otherId hne
      refine ⟨?_, ?_, ?_, ?_⟩
      · exact filter_key_after_filter_not_ne (·.classId) classId otherId hne db.enrollments
      · exact filter_key_after_filter_not_ne (·.classId) classId otherId hne db.assignments
      · exact filter_key_after_filter_not_ne (·.classId) classId otherId hne db.schedules
      · intro skip limit
        simp only [get_classroom_reports_by_class]
        rw [filter_key_after_filter_not_ne (·.classId) classId otherId hne db.classroomReports]

def classC8 : ClassRec := { id := 1, name := "Algebra I", code := "ALG1", teacherId := some 7 }

def dbC8 : DB :=
  { users := [{ id := 7, username := "prof", role := .teacher }]
    classes := [classC8, { id := 2, name := "Biology", code := "BIO1", teacherId := some 7 }]
    enrollments :=
      [{ id := 1, classId := 1, studentId := 2 }, { id := 2, classId := 2, studentId := 2 }]
    assignments :=
      [{ id := 10, name := "hw1", classId := 1, creatorId := 7 },
       { id := 11, name := "hw2", classId := 2, creatorId := 7 }]
    submissions := []
    schedules := [{ id := 5, classId := 1, status := "Clean" }]
    classroomReports := [{ id := 6, classId := 1, reporterId := 2, createdAt := 3 }]
    violations := [] }

theorem delete_class_cascades_witness :
    delete_class dbC8 99 = (false, dbC8) ∧
    (delete_class dbC8 1).1 = true ∧
    enrollmentsByClass (delete_class dbC8 1).2 1 = [] ∧
    assignmentsByClass (delete_class dbC8 1).2 1 = [] ∧
    schedulesByClass (delete_class dbC8 1).2 1 = [] ∧
    get_classroom_reports_by_class (delete_class dbC8 1).2 1 0 100 = [] ∧
    enrollmentsByClass (delete_class dbC8 1).2 2 = enrollmentsByClass dbC8 2 :=
  let h := (delete_class_cascades dbC8 1).2 classC8 (by rfl)
  ⟨(delete_class_cascades dbC8 99).1 (by rfl),
   h.1, h.2.1, h.2.2.1, h.2.2.2.1, h.2.2.2.2.1 0 100,
   (h.2.2.2.2.2 2 (by decide)).1⟩

/-! ## Claims about submission creation (C1, C6) -/

/-- The data-model invariants of §3 of the spec for submission rows: ids
are positive, the referenced assignment and user exist, every user row
carrying a submission's student id has the student role, and the student
is enrolled in the class of the referenced assignment. -/
def SubmissionWF (db : DB) : Prop :=
  (∀ s ∈ db.submissions, 0 < s.assignmentId ∧ 0 < s.studentId) ∧
  (∀ s ∈ db.submissions, ∃ a ∈ db.assignments, a.id = s.assignmentId) ∧
  (∀ s ∈ db.submissions, ∃ u ∈ db.users, u.id = s.studentId) ∧
  (∀ s ∈ db.submissions, ∀ u ∈ db.users, u.id = s.studentId → u.role = .student) ∧
  (∀ s ∈ db.submissions, ∀ a ∈ db.assignments, a.id = s.assignmentId →
    ∃ e ∈ db.enrollments, e.studentId = s.studentId ∧ e.classId = a.classId)

/-- C1 (code bug): when a submission for (student, assignment) already
exists in a store satisfying the data-model invariants, the
`POST /submissions/` endpoint actually answers with a **400** whose
message wraps the intended conflict ("Failed to create submission: 409:
Student has already submitted this assignment"), not the 409 the claim
(and the code's own 409 `HTTPException` plus the endpoint's pass-through
handler) intend: the crud layer's blanket `except Exception` converts the
conflict to a `ValueError` before it can escape.  The store is unchanged
(no second row is inserted), as the claim states. -/
theorem duplicate_submission_returns_400 (db : DB) (cu : UserRec)
    (subIn : SubmissionCreate) (now : Nat)
    (hrole : cu.role = .student) (hwf : SubmissionWF db)
    (htime : 0 ≤ subIn.timeSpentMinutes)
    (hdup : ∃ s ∈ db.submissions,
      s.assignmentId = subIn.assignmentId ∧ s.studentId = cu.id) :
    create_new_submission db cu subIn now =
      (.error (.badRequest
        "Failed to create submission: 409: Student has already submitted this assignment"), db) ∧
    statusCode (.badRequest
      "Failed to create submission: 409: Student has already submitted this assignment") = 400 := by
  obtain ⟨s0, hs0mem, hs0a, hs0u⟩ := hdup
  obtain ⟨hpos, hassign, husers, hroleInv, henroll⟩ := hwf
  have hpos0 := hpos s0 hs0mem
  have hapos : 0 < subIn.assignmentId := hs0a ▸ hpos0.1
  have hupos : 0 < cu.id := hs0u ▸ hpos0.2
  -- the referenced assignment is found
  obtain ⟨a, hfa⟩ : ∃ a, db.assignments.find? (fun x => x.id == subIn.assignmentId) = some a := by
    rw [← Option.isSome_iff_exists, List.find?_isSome]
    obtain ⟨a, hamem, haid⟩ := hassign s0 hs0mem
    exact ⟨a, hamem, by simp [haid, hs0a]⟩
  have haid : a.id = subIn.assignmentId := by simpa using List.find?_some hfa
  have hamem : a ∈ db.assignments := List.mem_of_find?_eq_some hfa
  -- the submitting user is found and has the student role
  obtain ⟨u, hfu⟩ : ∃ u, db.users.find? (fun x => x.id == cu.id) = some u := by
    rw [← Option.isSome_iff_exists, List.find?_isSome]
    obtain ⟨u, humem, huid⟩ := husers s0 hs0mem
    exact ⟨u, humem, by simp [huid, hs0u]⟩
  have huid : u.id = cu.id := by simpa using List.find?_some hfu
  have humem : u ∈ db.users := List.mem_of_find?_eq_some hfu
  have hurole : u.role = .student := hroleInv s0 hs0mem u humem (huid.trans hs0u.symm)
  -- the enrollment row is found
  obtain ⟨e, hfe⟩ : ∃ e, db.enrollments.find?
      (fun e => e.studentId == cu.id && e.classId == a.classId) = some e := by
    rw [← Option.isSome_iff_exists, List.find?_isSome]
    obtain ⟨e, hemem, heuid, hecid⟩ := henroll s0 hs0mem a hamem (haid.trans hs0a.symm)
    exact ⟨e, hemem, by simp [heuid, hecid, hs0u]⟩
  -- the duplicate submission is found
  obtain ⟨s1, hfs⟩ : ∃ s1, db.submissions.find?
      (fun s => s.assignmentId == subIn.assignmentId && s.studentId == cu.id) = some s1 := by
    rw [← Option.isSome_iff_exists, List.find?_isSome]
    exact ⟨s0, hs0mem, by simp [hs0a, hs0u]⟩
  have hbody : create_submission_body db subIn (some cu.id) now =
      (.error (.conflict "Student has already submitted this assignment"), db) := by
    simp only [create_submission_body, Option.getD_some, hfa, hfu, hfe, hfs]
    rw [if_neg (not_le.mpr hapos), if_neg (not_le.mpr hupos),
      if_neg (not_lt.mpr htime), if_neg (by simp [hurole])]
  have hcrud : create_submission db subIn (some cu.id) now =
      (.error (.validation
        "Failed to create submission: 409: Student has already submitted this assignment"), db) := by
    simp [create_submission, hbody]
  refine ⟨?_, rfl⟩
  simp [create_new_submission, hrole, hcrud]

def stuC1 : UserRec := { id := 2, username := "alice", role := .student }

def dbC1 : DB :=
  { users := [stuC1]
    classes := [{ id := 5, name := "Algebra I", code := "ALG1", teacherId := none }]
    enrollments := [{ id := 1, classId := 5, studentId := 2 }]
    assignments := [{ id := 1, name := "hw", classId := 5, creatorId := 3 }]
    submissions :=
      [{ id := 1, assignmentId := 1, studentId := 2, grade := none, timeSpentMinutes := 30,
         content := none, linkUrl := none, filePath := none, fileName := none, submittedAt := 4 }]
    schedules := []
    classroomReports := []
    violations := [] }

theorem duplicate_submission_returns_400_witness :
    create_new_submission dbC1 stuC1 { assignmentId := 1, studentId := 2, timeSpentMinutes := 12 } 9 =
      (.error (.badRequest
        "Failed to create submission: 409: Student has already submitted this assignment"), dbC1) ∧
    statusCode (.badRequest
      "Failed to create submission: 409: Student has already submitted this assignment") = 400 :=
  duplicate_submission_returns_400 dbC1 stuC1
    { assignmentId := 1, studentId := 2, timeSpentMinutes := 12 } 9
    rfl
    (by refine ⟨?_, ?_, ?_, ?_, ?_⟩ <;> decide)
    (by decide)
    ⟨{ id := 1, assignmentId := 1, studentId := 2, grade := none, timeSpentMinutes := 30,
       content := none, linkUrl := none, filePath := none, fileName := none, submittedAt := 4 },
     by simp [dbC1], rfl, rfl⟩

/-- C6 (amended): the JSON submission path (`crud.create_submission`)
rejects a student who is not enrolled in the assignment's class with a
validation error and leaves the store unchanged; the file-upload path
(`POST /submissions/upload/`) performs no enrollment check at all and
inserts a submission row for the requesting student regardless of
enrollment. -/
theorem submission_enrollment_check (db : DB) :
    (∀ (subIn : SubmissionCreate) (sid : Option Int) (now : Nat)
       (a : AssignmentRec) (u : UserRec),
      0 < subIn.assignmentId → 0 < sid.getD subIn.studentId →
      0 ≤ subIn.timeSpentMinutes →
      db.assignments.find? (fun x => x.id == subIn.assignmentId) = some a →
      db.users.find? (fun x => x.id == sid.getD subIn.studentId) = some u →
      u.role = .student →
      db.enrollments.find?
        (fun e => e.studentId == sid.getD subIn.studentId && e.classId == a.classId) = none →
      create_submission db subIn sid now =
        (.error (.validation "Student is not enrolled in the class for this assignment"), db)) ∧
    (∀ (cu : UserRec) (form : UploadForm) (now : Nat),
      cu.role = .student →
      db.submissions.find?
        (fun s => s.assignmentId == form.assignmentId && s.studentId == cu.id) = none →
      ∃ s', create_submission_with_file db cu form now =
          (.ok s', { db with submissions := db.submissions ++ [s'] }) ∧
        s'.studentId = cu.id ∧ s'.assignmentId = form.assignmentId) := by
  constructor
  · intro subIn sid now a u hapos hupos htime hfa hfu hurole hnoe
    have hbody : create_submission_body db subIn sid now =
        (.error (.validation "Student is not enrolled in the class for this assignment"), db) := by
      simp only [create_submission_body, hfa, hfu, hnoe]
      rw [if_neg (not_le.mpr hapos), if_neg (not_le.mpr hupos),
        if_neg (not_lt.mpr htime), if_neg (by simp [hurole])]
    simp [create_submission, hbody]
  · intro cu form now hrole hnosub
    refine ⟨{ id := freshId (db.submissions.map (·.id)), assignmentId := form.assignmentId
              studentId := cu.id, grade := none, timeSpentMinutes := form.timeSpentMinutes
              content := form.content, linkUrl := form.linkUrl, filePath := form.filePath
              fileName := form.fileName, submittedAt := now }, ?_, rfl, rfl⟩
    simp only [create_submission_with_file, hrole, hnosub]
    rw [if_neg (by simp)]

def stuC6 : UserRec := { id := 2, username := "mallory", role := .student }

/-- A store in which student 2 is **not** enrolled in class 5, the class
of assignment 1. -/
def dbC6 : DB :=
  { users := [stuC6]
    classes := [{ id := 5, name := "Algebra I", code := "ALG1", teacherId := none }]
    enrollments := []
    assignments := [{ id := 1, name := "hw", classId := 5, creatorId := 3 }]
    submissions := []
    schedules := []
    classroomReports := []
    violations := [] }

def formC6 : UploadForm :=
  { assignmentId := 1, content := some "hello", linkUrl := none,
    timeSpentMinutes := 30, filePath := none, fileName := none }

/-- C6 (counterexample to the claim as stated): student 2 is not enrolled
in class 5, the class of assignment 1, yet the upload path succeeds and a
submission row for (student 2, assignment 1) is inserted. -/
theorem submission_enrollment_check_counterexample :
    dbC6.enrollments.filter (fun e => e.studentId == 2 && e.classId == 5) = [] ∧
    (dbC6.assignments.filter (·.id == 1)).map (·.classId) = [5] ∧
    (create_submission_with_file dbC6 stuC6 formC6 9).1.isOk = true ∧
    ((create_submission_with_file dbC6 stuC6 formC6 9).2.submissions.map
      (fun s => (s.studentId, s.assignmentId))) = [(2, 1)] := by
  refine ⟨rfl, rfl, ?_, ?_⟩ <;>
    simp [create_submission_with_file, stuC6, dbC6, formC6, freshId, Except.isOk, Except.toBool]

theorem submission_enrollment_check_witness :
    create_submission dbC6 { assignmentId := 1, studentId := 2, timeSpentMinutes := 12 } none 9 =
      (.error (.validation "Student is not enrolled in the class for this assignment"), dbC6) ∧
    ∃ s', create_submission_with_file dbC6 stuC6 formC6 9 =
        (.ok s', { dbC6 with submissions := dbC6.submissions ++ [s'] }) ∧
      s'.studentId = stuC6.id ∧ s'.assignmentId = formC6.assignmentId :=
  ⟨(submission_enrollment_check dbC6).1
      { assignmentId := 1, studentId := 2, timeSpentMinutes := 12 } none 9
      { id := 1, name := "hw", classId := 5, creatorId := 3 } stuC6
      (by decide) (by decide) (by decide) (by rfl) (by rfl) rfl (by rfl),
   (submission_enrollment_check dbC6).2 stuC6 formC6 9 rfl (by rfl)⟩

/-! ## Claim about engagement insights (C2) -/

/-- C2 (amended): for an authorized caller and an existing assignment the
engagement endpoint returns the zero summary when there are no
submissions, and otherwise reports `average_time_spent` and the clamped
heuristic score of the spec formula, each rounded to one decimal. -/
theorem engagement_insights_formula (db : DB) (cu : UserRec)
    (assignmentId : Int) (a : AssignmentRec)
    (hfa : db.assignments.find? (fun x => x.id == assignmentId) = some a)
    (hauth : cu.role = .admin ∨ (cu.role = .teacher ∧ a.creatorId = cu.id)) :
    get_engagement_insights db cu assignmentId =
      .ok (engagementSpec assignmentId (db.submissions.filter (·.assignmentId == assignmentId))) := by
  have hroleGuard : ¬ (cu.role ≠ .teacher ∧ cu.role ≠ .admin) := by
    rcases hauth with h | ⟨h, _⟩ <;> simp [h]
  have hcreatorGuard : ¬ (cu.role = .teacher ∧ a.creatorId ≠ cu.id) := by
    rcases hauth with h | ⟨h1, h2⟩
    · rintro ⟨hc, _⟩; rw [h] at hc; exact absurd hc (by simp)
    · rintro ⟨_, hc⟩; exact hc h2
  simp only [get_engagement_insights, hfa, if_neg hroleGuard, if_neg hcreatorGuard]
  by_cases hlen : (db.submissions.filter (·.assignmentId == assignmentId)).length = 0
  · simp [engagementSpec, hlen]
  · rw [if_neg hlen]
    simp only [engagementSpec, if_neg hlen, clamp]
    have harg :
        ((db.submissions.filter (·.assignmentId == assignmentId)).length : ℚ) * (4/10) +
          (((db.submissions.filter (·.assignmentId == assignmentId)).map (·.timeSpentMinutes)).sum /
            ((db.submissions.filter (·.assignmentId == assignmentId)).length : ℚ)) / 10 * (4/10) + 2 =
        (4/10) * ((db.submissions.filter (·.assignmentId == assignmentId)).length : ℚ) +
          (4/100) * (((db.submissions.filter (·.assignmentId == assignmentId)).map (·.timeSpentMinutes)).sum /
            ((db.submissions.filter (·.assignmentId == assignmentId)).length : ℚ)) + 2 := by
      ring
    rw [harg]

def adminC2 : UserRec := { id := 9, username := "root", role := .admin }

def dbC2 : DB :=
  { users := [adminC2]
    classes := []
    enrollments := []
    assignments := [{ id := 1, name := "hw", classId := 5, creatorId := 3 }]
    submissions :=
      [{ id := 1, assignmentId := 1, studentId := 2, grade := none, timeSpentMinutes := 4,
         content := none, linkUrl := none, filePath := none, fileName := none, submittedAt := 1 },
       { id := 2, assignmentId := 1, studentId := 3, grade := none, timeSpentMinutes := 3,
         content := none, linkUrl := none, filePath := none, fileName := none, submittedAt := 2 },
       { id := 3, assignmentId := 1, studentId := 4, grade := none, timeSpentMinutes := 3,
         content := none, linkUrl := none, filePath := none, fileName := none, submittedAt := 3 }]
    schedules := []
    classroomReports := []
    violations := [] }

/-- C2 (counterexample to the claim as stated): with three submissions
totalling 10 minutes the exact mean is 10/3, but the endpoint returns
33/10 (the value rounded to one decimal), so the response's
`average_time_spent` is not `total_time_spent / submission_count`. -/
theorem engagement_insights_formula_counterexample :
    (((dbC2.submissions.filter (·.assignmentId == 1)).map (·.timeSpentMinutes)).sum /
      ((dbC2.submissions.filter (·.assignmentId == 1)).length : ℚ)) = 10/3 ∧
    (get_engagement_insights dbC2 adminC2 1).toOption.map (·.averageTimeSpent) =
      some (33/10) ∧
    (33/10 : ℚ) ≠ 10/3 := by
  refine ⟨?_, ?_, by norm_num⟩
  · simp [dbC2]
    norm_num
  · simp [get_engagement_insights, dbC2, adminC2, pyRound, roundHalfEven]
    norm_num [Int.fract]
    exact ⟨_, rfl, rfl⟩

theorem engagement_insights_formula_witness :
    get_engagement_insights dbC2 adminC2 1 =
      .ok (engagementSpec 1 (dbC2.submissions.filter (·.assignmentId == 1))) :=
  engagement_insights_formula dbC2 adminC2 1
    { id := 1, name := "hw", classId := 5, creatorId := 3 }
    (by rfl) (Or.inl rfl)

/-! ## Claim about the teacher report rollup (C3)

The per-class counters of `get_teacher_reports` are accumulated student
by student; relating them to the claim's class-level descriptions ("mean
of all graded submission grades in the class", "total submissions /
(students × assignments)") is a fiberwise-sum argument over the enrolled
students. -/

theorem sum_map_ones {α : Type} (l : List α) :
    (l.map (fun _ => (1 : ℕ))).sum = l.length := by
  induction l with
  | nil => rfl
  | cons x xs ih => simp [ih, Nat.add_comm]

theorem sum_filterMap_grade (l : List SubmissionRec) :
    ((l.filterMap (·.grade)).sum : ℚ) = (l.map (fun s => s.grade.getD 0)).sum := by
  induction l with
  | nil => rfl
  | cons s xs ih =>
    cases hg : s.grade with
    | none => simp [List.filterMap_cons, hg, ih]
    | some g => simp [List.filterMap_cons, hg, ih]

theorem length_filterMap_grade (l : List SubmissionRec) :
    (l.filterMap (·.grade)).length =
      (l.map (fun s => if s.grade.isSome then (1 : ℕ) else 0)).sum := by
  induction l with
  | nil => rfl
  | cons s xs ih =>
    cases hg : s.grade with
    | none => simp [List.filterMap_cons, hg, ih]
    | some g => simp [List.filterMap_cons, hg, ih, Nat.add_comm]

theorem sum_map_filter_split {α M : Type} [AddCommMonoid M] (p : α → Bool)
    (f : α → M) (l : List α) :
    (l.map f).sum =
      ((l.filter p).map f).sum + ((l.filter (fun a => !(p a))).map f).sum := by
  induction l with
  | nil => simp
  | cons x xs ih =>
    by_cases h : p x
    · simp [List.filter_cons, h, ih, add_assoc]
    · simp only [List.map_cons, List.sum_cons, List.filter_cons, h]
      simp only [Bool.false_eq_true, if_false, Bool.not_false, if_true, List.map_cons,
        List.sum_cons, ih]
      abel

/-- Summing any weight over all enrolled students' submission fibers gives
the sum over the whole class-submission list, provided the enrolled
student ids are distinct and cover every submission's student. -/
theorem sum_fiberwise_enroll {M : Type} [AddCommMonoid M] (f : SubmissionRec → M) :
    ∀ (es : List EnrollmentRec) (items : List SubmissionRec),
      (es.map (·.studentId)).Nodup →
      (∀ i ∈ items, ∃ e ∈ es, e.studentId = i.studentId) →
      (es.map (fun e => ((items.filter (fun i => i.studentId == e.studentId)).map f).sum)).sum =
        (items.map f).sum := by
  intro es
  induction es with
  | nil =>
    intro items _ hcov
    have : items = [] := by
      cases items with
      | nil => rfl
      | cons i is => exact absurd (hcov i (by simp)) (by simp)
    simp [this]
  | cons e es ih =>
    intro items hnd hcov
    have hndTail : (es.map (·.studentId)).Nodup := (List.nodup_cons.mp hnd).2
    have hheadNot : e.studentId ∉ es.map (·.studentId) := (List.nodup_cons.mp hnd).1
    set items' := items.filter (fun i => !(i.studentId == e.studentId)) with hitems'
    have hfiber : ∀ e' ∈ es,
        items.filter (fun i => i.studentId == e'.studentId) =
          items'.filter (fun i => i.studentId == e'.studentId) := by
      intro e' he'
      have hne : e'.studentId ≠ e.studentId := by
        intro hcontra
        exact hheadNot (hcontra ▸ List.mem_map_of_mem (·.studentId) he')
      exact (filter_key_after_filter_not_ne (·.studentId) e.studentId e'.studentId hne items).symm
    have hcov' : ∀ i ∈ items', ∃ e' ∈ es, e'.studentId = i.studentId := by
      intro i hi
      have himem : i ∈ items := List.mem_of_mem_filter hi
      have hkeep := (List.mem_filter.mp hi).2
      obtain ⟨e', he'mem, he'id⟩ := hcov i himem
      rcases List.mem_cons.mp he'mem with hhead | htail
      · exfalso
        rw [hhead] at he'id
        simp [he'id] at hkeep
      · exact ⟨e', htail, he'id⟩
    have hmapcongr :
        es.map (fun e' => ((items.filter (fun i => i.studentId == e'.studentId)).map f).sum) =
          es.map (fun e' => ((items'.filter (fun i => i.studentId == e'.studentId)).map f).sum) := by
      apply List.map_congr_left
      intro e' he'
      rw [hfiber e' he']
    simp only [List.map_cons, List.sum_cons, hmapcongr, ih items' hndTail hcov']
    exact (sum_map_filter_split (fun i => i.studentId == e.studentId) f items).symm

theorem count_fiberwise_enroll (es : List EnrollmentRec) (items : List SubmissionRec)
    (hnd : (es.map (·.studentId)).Nodup)
    (hcov : ∀ i ∈ items, ∃ e ∈ es, e.studentId = i.studentId) :
    (es.map (fun e => (items.filter (fun i => i.studentId == e.studentId)).length)).sum =
      items.length := by
  have h := sum_fiberwise_enroll (fun _ => (1 : ℕ)) es items hnd hcov
  simpa [sum_map_ones] using h

theorem gradeSum_fiberwise_enroll (es : List EnrollmentRec) (items : List SubmissionRec)
    (hnd : (es.map (·.studentId)).Nodup)
    (hcov : ∀ i ∈ items, ∃ e ∈ es, e.studentId = i.studentId) :
    (es.map (fun e =>
      (((items.filter (fun i => i.studentId == e.studentId)).filterMap (·.grade)).sum : ℚ))).sum =
      (items.filterMap (·.grade)).sum := by
  have h := sum_fiberwise_enroll (fun s => (s.grade.getD 0 : ℚ)) es items hnd hcov
  simpa [sum_filterMap_grade] using h

theorem gradeCount_fiberwise_enroll (es : List EnrollmentRec) (items : List SubmissionRec)
    (hnd : (es.map (·.studentId)).Nodup)
    (hcov : ∀ i ∈ items, ∃ e ∈ es, e.studentId = i.studentId) :
    (es.map (fun e =>
      ((items.filter (fun i => i.studentId == e.studentId)).filterMap (·.grade)).length)).sum =
      (items.filterMap (·.grade)).length := by
  have h := sum_fiberwise_enroll (fun s => if s.grade.isSome then (1 : ℕ) else 0) es items hnd hcov
  simpa [length_filterMap_grade] using h

theorem filter_and_eq {α : Type} (p q : α → Bool) (l : List α) :
    l.filter (fun a => p a && q a) = (l.filter q).filter p := by
  induction l with
  | nil => rfl
  | cons x xs ih =>
    by_cases hq : q x
    · by_cases hp : p x
      · rw [List.filter_cons, List.filter_cons,
          if_pos (show (p x && q x) = true by simp [hp, hq]), if_pos hq,
          List.filter_cons, if_pos hp, ih]
      · rw [List.filter_cons, List.filter_cons,
          if_neg (show ¬ ((p x && q x) = true) by simp [hp]), if_pos hq,
          List.filter_cons, if_neg (show ¬ (p x = true) by simp [hp]), ih]
    · rw [List.filter_cons, List.filter_cons,
        if_neg (show ¬ ((p x && q x) = true) by simp [hq]),
        if_neg (show ¬ (q x = true) by simp [hq]), ih]

/-- The submissions belonging to a class: any submission whose assignment
is one of the class's assignments.  This is the claim's notion of
"submission grades in the class". -/
def classSubmissions (db : DB) (classId : Int) : List SubmissionRec :=
  db.submissions.filter
    (fun s => ((assignmentsByClass db classId).map (·.id)).contains s.assignmentId)

theorem studentClassSubmissions_eq_fiber (db : DB) (classId k : Int) :
    studentClassSubmissions db ((assignmentsByClass db classId).map (·.id)) k =
      (classSubmissions db classId).filter (fun s => s.studentId == k) := by
  unfold studentClassSubmissions classSubmissions
  exact filter_and_eq _ _ _

/-- Written from the claim: a student's entry reports the mean over their
graded submissions in the class (0 when none are graded) and the
submission rate submitted/total×100 (0 when the class has no
assignments), each rounded to two decimals as the handler does. -/
def studentSpecEntry (db : DB) (classId : Int) (e : EnrollmentRec) : StudentPerf :=
  let aids := (assignmentsByClass db classId).map (·.id)
  let subs := db.submissions.filter
    (fun s => s.studentId == e.studentId && aids.contains s.assignmentId)
  let grades := subs.filterMap (·.grade)
  { studentId := e.studentId
    classId := classId
    averageGradeInClass := pyRound 2 (if grades.length = 0 then 0 else grades.sum / grades.length)
    totalAssignmentsSubmitted := subs.length
    totalAssignmentsAvailable := (assignmentsByClass db classId).length
    submissionRate := pyRound 2
      (if 0 < (assignmentsByClass db classId).length
       then (subs.length : ℚ) / ((assignmentsByClass db classId).length : ℚ) * 100 else 0) }

/-- Written from the claim: a class's entry reports the mean of all graded
submission grades in the class and total submissions / (students ×
assignments) × 100, rounded to two decimals. -/
def classSpecPerf (db : DB) (c : ClassRec) : ClassPerf :=
  let subs := classSubmissions db c.id
  let grades := subs.filterMap (·.grade)
  let students := (enrollmentsByClass db c.id).length
  let ta := (assignmentsByClass db c.id).length
  { classId := c.id
    totalStudents := students
    totalAssignments := ta
    averageGrade := pyRound 2 (if 0 < grades.length then grades.sum / grades.length else 0)
    submissionRate := pyRound 2
      (if 0 < students ∧ 0 < ta then (subs.length : ℚ) / ((students : ℚ) * ta) * 100 else 0) }

/-- The data-model conditions under which the per-student accumulation of
the report equals the claim's class-level descriptions: within a class no
student is enrolled twice, every enrollment references an existing user,
and every class submission belongs to an enrolled student. -/
def ReportWF (db : DB) : Prop :=
  (∀ c ∈ db.classes, ((enrollmentsByClass db c.id).map (·.studentId)).Nodup) ∧
  (∀ e ∈ db.enrollments, ∃ u ∈ db.users, u.id = e.studentId) ∧
  (∀ c ∈ db.classes, ∀ s ∈ classSubmissions db c.id,
    ∃ e ∈ enrollmentsByClass db c.id, e.studentId = s.studentId)

theorem reportLoop_spec (db : DB) (cid : Int) (aids : List Int) (ta : Nat) :
    ∀ es : List EnrollmentRec, (∀ e ∈ es, ∃ u ∈ db.users, u.id = e.studentId) →
    reportLoop db cid aids ta es =
      ((es.map (fun e => (studentClassSubmissions db aids e.studentId).length)).sum,
       (es.map (fun e =>
         (((studentClassSubmissions db aids e.studentId).filterMap (·.grade)).sum : ℚ))).sum,
       (es.map (fun e =>
         ((studentClassSubmissions db aids e.studentId).filterMap (·.grade)).length)).sum,
       es.map (fun e => studentEntry db cid aids ta e.studentId)) := by
  intro es
  induction es with
  | nil => intro _; rfl
  | cons e es ih =>
    intro hcov
    have htail := fun e' he' => hcov e' (List.mem_cons_of_mem _ he')
    obtain ⟨u, humem, huid⟩ := hcov e (List.mem_cons_self _ _)
    obtain ⟨u', hfu⟩ : ∃ u', db.users.find? (fun x => x.id == e.studentId) = some u' := by
      rw [← Option.isSome_iff_exists, List.find?_isSome]
      exact ⟨u, humem, by simp [huid]⟩
    have hu'id : u'.id = e.studentId := by simpa using List.find?_some hfu
    simp only [reportLoop, ih htail, hfu, hu'id, List.map_cons, List.sum_cons]

theorem flatMap_congr {α β : Type} {l : List α} {f g : α → List β}
    (h : ∀ a ∈ l, f a = g a) : l.flatMap f = l.flatMap g := by
  induction l with
  | nil => rfl
  | cons x xs ih =>
    simp only [List.flatMap_cons]
    rw [h x (List.mem_cons_self _ _), ih (fun a ha => h a (List.mem_cons_of_mem _ ha))]

theorem classReport_spec (db : DB) (c : ClassRec)
    (hnd : ((enrollmentsByClass db c.id).map (·.studentId)).Nodup)
    (hucov : ∀ e ∈ enrollmentsByClass db c.id, ∃ u ∈ db.users, u.id = e.studentId)
    (hscov : ∀ s ∈ classSubmissions db c.id,
      ∃ e ∈ enrollmentsByClass db c.id, e.studentId = s.studentId) :
    classReport db c =
      (classSpecPerf db c, (enrollmentsByClass db c.id).map (studentSpecEntry db c.id)) := by
  have hloop := reportLoop_spec db c.id ((assignmentsByClass db c.id).map (·.id))
    (assignmentsByClass db c.id).length (enrollmentsByClass db c.id) hucov
  have hfib : ∀ e : EnrollmentRec,
      studentClassSubmissions db ((assignmentsByClass db c.id).map (·.id)) e.studentId =
        (classSubmissions db c.id).filter (fun s => s.studentId == e.studentId) :=
    fun e => studentClassSubmissions_eq_fiber db c.id e.studentId
  have hts : ((enrollmentsByClass db c.id).map (fun e =>
      (studentClassSubmissions db ((assignmentsByClass db c.id).map (·.id)) e.studentId).length)).sum =
      (classSubmissions db c.id).length := by
    rw [← count_fiberwise_enroll (enrollmentsByClass db c.id) (classSubmissions db c.id) hnd hscov]
    apply congrArg List.sum
    apply List.map_congr_left
    intro e _
    rw [hfib e]
  have htg : ((enrollmentsByClass db c.id).map (fun e =>
      (((studentClassSubmissions db ((assignmentsByClass db c.id).map (·.id)) e.studentId).filterMap
        (·.grade)).sum : ℚ))).sum =
      ((classSubmissions db c.id).filterMap (·.grade)).sum := by
    rw [← gradeSum_fiberwise_enroll (enrollmentsByClass db c.id) (classSubmissions db c.id) hnd hscov]
    apply congrArg List.sum
    apply List.map_congr_left
    intro e _
    rw [hfib e]
  have hgc : ((enrollmentsByClass db c.id).map (fun e =>
      ((studentClassSubmissions db ((assignmentsByClass db c.id).map (·.id)) e.studentId).filterMap
        (·.grade)).length)).sum =
      ((classSubmissions db c.id).filterMap (·.grade)).length := by
    rw [← gradeCount_fiberwise_enroll (enrollmentsByClass db c.id) (classSubmissions db c.id) hnd hscov]
    apply congrArg List.sum
    apply List.map_congr_left
    intro e _
    rw [hfib e]
  simp only [classReport]
  rw [show List.filter (fun x => x.classId == c.id) db.assignments = assignmentsByClass db c.id from rfl,
    show List.filter (fun x => x.classId == c.id) db.enrollments = enrollmentsByClass db c.id from rfl,
    hloop]
  simp only [hts, htg, hgc]
  rfl

/-- C3 (amended): for a teacher, under the data-model invariants (no
duplicate enrollment within a class, enrollments reference existing
users, class submissions belong to enrolled students), the report's
per-student entries follow the claim's per-student formulas, its
per-class entries report the mean of all graded submission grades in the
class and total submissions / (students × assignments) × 100, and the
overall summary is the unweighted mean of the per-student values (an
average of averages) — every reported value rounded to two decimals. -/
theorem teacher_report_rollup (db : DB) (cu : UserRec) (rep : TeacherReport)
    (hrole : cu.role = .teacher) (hwf : ReportWF db)
    (hok : get_teacher_reports db cu = .ok rep) :
    rep.classPerformance = (get_classes_by_teacher db cu.id 0 100).map (classSpecPerf db) ∧
    rep.studentPerformance = (get_classes_by_teacher db cu.id 0 100).flatMap
      (fun c => (enrollmentsByClass db c.id).map (studentSpecEntry db c.id)) ∧
    rep.overallAverageGrade = (if rep.studentPerformance.length = 0 then 0
      else pyRound 2 ((rep.studentPerformance.map (·.averageGradeInClass)).sum /
        (rep.studentPerformance.length : ℚ))) ∧
    rep.overallSubmissionRate = (if rep.studentPerformance.length = 0 then 0
      else pyRound 2 ((rep.studentPerformance.map (·.submissionRate)).sum /
        (rep.studentPerformance.length : ℚ))) := by
  obtain ⟨hwf1, hwf2, hwf3⟩ := hwf
  have hclassmem : ∀ c ∈ get_classes_by_teacher db cu.id 0 100, c ∈ db.classes := by
    intro c hc
    simp only [get_classes_by_teacher, List.drop_zero] at hc
    exact (List.filter_sublist _).subset (List.take_subset _ _ hc)
  have hCR : ∀ c ∈ get_classes_by_teacher db cu.id 0 100,
      classReport db c =
        (classSpecPerf db c, (enrollmentsByClass db c.id).map (studentSpecEntry db c.id)) := by
    intro c hc
    have hcmem := hclassmem c hc
    refine classReport_spec db c (hwf1 c hcmem) ?_ (hwf3 c hcmem)
    intro e he
    exact hwf2 e ((List.filter_sublist _).subset he)
  unfold get_teacher_reports at hok
  rw [if_neg (show ¬ (cu.role ≠ Role.teacher) from by simp [hrole])] at hok
  simp only [Except.ok.injEq] at hok
  subst hok
  refine ⟨?_, ?_, rfl, rfl⟩
  · show ((get_classes_by_teacher db cu.id 0 100).map (classReport db)).map Prod.fst = _
    rw [List.map_map]
    apply List.map_congr_left
    intro c hc
    show (classReport db c).1 = _
    rw [hCR c hc]
  · show ((get_classes_by_teacher db cu.id 0 100).map (classReport db)).flatMap Prod.snd = _
    have hswap : ∀ l : List ClassRec,
        (l.map (classReport db)).flatMap Prod.snd = l.flatMap (fun c => (classReport db c).2) := by
      intro l
      induction l with
      | nil => rfl
      | cons x xs ih => simp [List.flatMap_cons, ih]
    rw [hswap]
    apply flatMap_congr
    intro c hc
    show (classReport db c).2 = _
    rw [hCR c hc]

def teacherC3 : UserRec := { id := 7, username := "prof", role := .teacher }

def dbC3 : DB :=
  { users := [teacherC3, { id := 2, username := "alice", role := .student }]
    classes := [{ id := 1, name := "Algebra I", code := "ALG1", teacherId := some 7 }]
    enrollments := [{ id := 1, classId := 1, studentId := 2 }]
    assignments :=
      [{ id := 10, name := "hw1", classId := 1, creatorId := 7 },
       { id := 11, name := "hw2", classId := 1, creatorId := 7 },
       { id := 12, name := "hw3", classId := 1, creatorId := 7 }]
    submissions :=
      [{ id := 1, assignmentId := 10, studentId := 2, grade := some 10, timeSpentMinutes := 5,
         content := none, linkUrl := none, filePath := none, fileName := none, submittedAt := 1 },
       { id := 2, assignmentId := 11, studentId := 2, grade := some 10, timeSpentMinutes := 5,
         content := none, linkUrl := none, filePath := none, fileName := none, submittedAt := 2 },
       { id := 3, assignmentId := 12, studentId := 2, grade := some 5, timeSpentMinutes := 5,
         content := none, linkUrl := none, filePath := none, fileName := none, submittedAt := 3 }]
    schedules := []
    classroomReports := []
    violations := [] }

def repC3 : TeacherReport :=
  { classPerformance :=
      [{ classId := 1, totalStudents := 1, totalAssignments := 3,
         averageGrade := 833/100, submissionRate := 100 }]
    studentPerformance :=
      [{ studentId := 2, classId := 1, averageGradeInClass := 833/100,
         totalAssignmentsSubmitted := 3, totalAssignmentsAvailable := 3,
         submissionRate := 100 }]
    totalClasses := 1
    totalStudents := 1
    overallAverageGrade := 833/100
    overallSubmissionRate := 100 }

theorem teacher_report_rollup_witness :
    repC3.classPerformance = (get_classes_by_teacher dbC3 teacherC3.id 0 100).map (classSpecPerf dbC3) ∧
    repC3.studentPerformance = (get_classes_by_teacher dbC3 teacherC3.id 0 100).flatMap
      (fun c => (enrollmentsByClass dbC3 c.id).map (studentSpecEntry dbC3 c.id)) ∧
    repC3.overallAverageGrade = (if repC3.studentPerformance.length = 0 then 0
      else pyRound 2 ((repC3.studentPerformance.map (·.averageGradeInClass)).sum /
        (repC3.studentPerformance.length : ℚ))) ∧
    repC3.overallSubmissionRate = (if repC3.studentPerformance.length = 0 then 0
      else pyRound 2 ((repC3.studentPerformance.map (·.submissionRate)).sum /
        (repC3.studentPerformance.length : ℚ))) :=
  teacher_report_rollup dbC3 teacherC3 repC3 rfl
    (by refine ⟨?_, ?_, ?_⟩ <;> decide)
    (by
      simp [get_teacher_reports, get_classes_by_teacher, classReport, reportLoop,
        studentEntry, studentClassSubmissions, dbC3, teacherC3, repC3,
        pyRound, roundHalfEven]
      norm_num [Int.fract])

/-- C3 (counterexample to the claim as stated): student 2's graded
submissions have the exact mean 25/3, but the report's per-student
average grade is 8.33 (= 833/100, the value rounded to two decimals), so
the reported average grade is not the exact mean. -/
theorem teacher_report_rollup_counterexample :
    ((get_teacher_reports dbC3 teacherC3).toOption.map
      (fun rep => rep.studentPerformance.map (·.averageGradeInClass))) = some [833/100] ∧
    ((((dbC3.submissions.filter (fun s => s.studentId == 2)).filterMap (·.grade)).sum /
      (((dbC3.submissions.filter (fun s => s.studentId == 2)).filterMap (·.grade)).length : ℚ))) = 25/3 ∧
    (833/100 : ℚ) ≠ 25/3 := by
  refine ⟨?_, ?_, by norm_num⟩
  · simp [get_teacher_reports, get_classes_by_teacher, classReport, reportLoop,
      studentEntry, studentClassSubmissions, dbC3, teacherC3,
      pyRound, roundHalfEven]
    norm_num [Int.fract]
    exact ⟨_, rfl, rfl⟩
  · simp [dbC3]
    norm_num
